import Mathlib

/-
Verification of the fucto repository (an OpenAI-compatible bridge to the
cto.new backend) against its natural-language specification.

The embedding below is a shallow model of the two source files the claims
target:

  * cto_new_client.py   — CtoNewClient: the authentication state machine
    (_get_clerk_info, _hydrate_ws_token_from_memberships, _touch_session,
    _refresh_jwt, authenticate) and the WebSocket stream relay
    (stream_chat_response).
  * openai_api_server.py — CookieManager: the credential pool
    (_load_cookies, get_cookie).

Network and filesystem effects are modelled by passing the observed
responses explicitly; Python attribute mutation is modelled by explicit
state passing on record types.  Python truthiness of optional strings
(None and "" are both falsy) is modelled by the predicate pyFalsy on
Option String, and Python's short-circuiting "a or b" on such values by
pyOr.
-/

namespace Fucto

/- ============================================================
   Stream relay: CtoNewClient.stream_chat_response
   (src/cto_new_client.py lines 249-284)
   ============================================================ -/

/-- Result of json.loads on the nested "buffer" payload of an update frame:
either a chat payload with a content string (inner.get("chat", \x7b\x7d).get("content", "")),
a payload of some other inner type, or a string that fails to parse
(json.JSONDecodeError). -/
inductive Inner where
  | chat (content : String)
  | otherType
  | invalid
  deriving DecidableEq, Repr

/-- One received WebSocket message, after the outer json.loads attempt.
update carries the optional buffer payload (none models a missing or falsy
"buffer" field); state carries the truthiness of data["state"].get("inProgress")
(none models a missing "state" key, which raises KeyError in the source);
invalid models a message whose outer json.loads fails; otherType models a
parsed message whose "type" is neither "update" nor "state". -/
inductive Frame where
  | update (buffer : Option Inner)
  | state (inProgress : Option Bool)
  | invalid
  | otherType
  deriving DecidableEq, Repr

/-- One event observed by the read loop: a frame delivered by ws.recv, an
asyncio.TimeoutError from the 30-second wait_for, a ConnectionClosed from
the channel (also covering closure at connect time), or any other
exception (a transport fault). -/
inductive RecvEvent where
  | frame (f : Frame)
  | timeout
  | closed
  | fault
  deriving DecidableEq, Repr

/-- How the generator finishes: normal completion, or raising ApiError. -/
inductive StreamResult where
  | ok
  | apiError
  deriving DecidableEq, Repr

/-- Shallow embedding of CtoNewClient.stream_chat_response: consumes the
sequence of read-loop events and returns the list of yielded content
increments together with how the generator finishes.  Mirrors the source
loop: update frames with a chat payload yield their non-empty content;
state frames with falsy inProgress break; json.JSONDecodeError and
KeyError continue; asyncio.TimeoutError breaks the loop; ConnectionClosed
and TimeoutError at the outer level pass; any other exception raises
ApiError.  An exhausted event list models the upstream closing the channel
with no further signal (ConnectionClosed, hence quiet completion). -/
def stream_chat_response : List RecvEvent → List String × StreamResult
  | [] => ([], .ok)
  | .timeout :: _ => ([], .ok)
  | .closed :: _ => ([], .ok)
  | .fault :: _ => ([], .apiError)
  | .frame f :: rest =>
    match f with
    | .invalid => stream_chat_response rest
    | .otherType => stream_chat_response rest
    | .update none => stream_chat_response rest
    | .update (some .invalid) => stream_chat_response rest
    | .update (some .otherType) => stream_chat_response rest
    | .update (some (.chat content)) =>
      if content = "" then stream_chat_response rest
      else
        let r := stream_chat_response rest
        (content :: r.1, r.2)
    | .state none => stream_chat_response rest
    | .state (some true) => stream_chat_response rest
    | .state (some false) => ([], .ok)

/-- An update frame carrying a serialized chat payload with the given content. -/
def updateChat (c : String) : RecvEvent := .frame (.update (some (.chat c)))

/-- A state frame with inProgress false (the success terminal of the stream). -/
def stateDone : RecvEvent := .frame (.state (some false))

/-- A received frame is non-terminal when it is an ordinary frame other than
a state frame with falsy inProgress: processing it never ends the loop. -/
def nonTerminal : RecvEvent → Bool
  | .frame (.state (some false)) => false
  | .frame _ => true
  | _ => false

/- ============================================================
   Python truthiness on optional strings
   ============================================================ -/

/-- Python truthiness of an optional string: None and "" are both falsy.
Models the "if not x" and "x or y" tests the client applies to token and
identifier fields. -/
def pyFalsy : Option String → Bool
  | none => true
  | some s => s = ""

/-- The value of the Python expression "a or b" on optional strings: the
first operand when truthy, the second otherwise. -/
def pyOr (a b : Option String) : Option String := if pyFalsy a then b else a

/- ============================================================
   Clerk response data (parsed JSON shapes used by _get_clerk_info and
   _hydrate_ws_token_from_memberships, src/cto_new_client.py lines 60-156)
   ============================================================ -/

/-- One entry of the sessions array of a Clerk client object.  Each field
models the corresponding .get access of the source; last_active_token_jwt
models session.get("last_active_token", \x7b\x7d).get("jwt") and user_id models
session.get("user", \x7b\x7d).get("id"), both total chains in the source. -/
structure SessionData where
  id : Option String := none
  last_active_organization_id : Option String := none
  ws_user_token : Option String := none
  wsToken : Option String := none
  last_active_token_jwt : Option String := none
  user_id : Option String := none
  deriving DecidableEq, Repr, Inhabited

/-- The organization object nested in an organization membership. -/
structure Organization where
  id : Option String := none
  deriving DecidableEq, Repr, Inhabited

/-- One entry of the organization_memberships array (none models an entry
that is not a dict or lacks the organization key). -/
structure OrgMembership where
  organization : Option Organization := none
  deriving DecidableEq, Repr, Inhabited

/-- The Clerk client object: the dict the source selects from the payload
(payload.get("response") or payload.get("client") or \x7b\x7d for the primary
lookup, data.get("client", \x7b\x7d) for the membership lookup). -/
structure ClientData where
  sessions : List SessionData := []
  last_active_session_id : Option String := none
  last_active_organization_id : Option String := none
  organization_memberships : Option (List OrgMembership) := none
  deriving DecidableEq, Repr, Inhabited

/-- The mutable authentication state of a CtoNewClient instance: the
attributes _jwt, _ws_user_token, _session_id, _active_org_id (all start
as None). -/
structure ClientState where
  jwt : Option String := none
  ws_user_token : Option String := none
  session_id : Option String := none
  active_org_id : Option String := none
  deriving DecidableEq, Repr, Inhabited

/-- How many times each upstream endpoint has been called: the GET on
/v1/client, the GET on /v1/me/organization_memberships, the POST on
sessions/.../touch and the POST on sessions/.../tokens. -/
structure NetTrace where
  clerk_info_calls : Nat := 0
  membership_calls : Nat := 0
  touch_calls : Nat := 0
  tokens_calls : Nat := 0
  deriving DecidableEq, Repr, Inhabited

/-- The errors the client raises as AuthError, one constructor per raise
site (or per except clause re-raising as AuthError). -/
inductive AuthErrKind where
  | noSessions
  | noSessionOrWsToken
  | touchSessionIdMissing
  | touchRequestFailed
  | refreshSessionIdMissing
  | tokensRequestFailed
  | emptyJwt
  deriving DecidableEq, Repr

/-- Result of one client operation: the state after the call (Python
attribute mutation persists even when an exception is raised), the network
trace, and the AuthError raised, if any. -/
structure StepResult where
  state : ClientState
  trace : NetTrace
  err : Option AuthErrKind
  deriving DecidableEq, Repr

/-- Outcome of the organization_memberships GET: a transport failure
(cffi RequestsError, swallowed by the source) or a parsed client object. -/
inductive MembershipResp where
  | err
  | ok (data : ClientData)
  deriving DecidableEq, Repr

/-- Outcome of a touch or tokens POST: a transport failure (RequestsError,
also covering non-2xx via raise_for_status) or the jwt field of the JSON
response body. -/
inductive HttpResp where
  | err
  | ok (jwt : Option String)
  deriving DecidableEq, Repr

/- ============================================================
   Identity handshake: _extract_active_org, session selection, ws-token
   extraction, _hydrate_ws_token_from_memberships, _get_clerk_info
   ============================================================ -/

/-- CtoNewClient._extract_active_org (lines 149-156): the id of the
organization of the first membership entry, when present. -/
def extract_active_org (client_data : ClientData) : Option String :=
  match client_data.organization_memberships with
  | some (m :: _) =>
    match m.organization with
    | some org => org.id
    | none => none
  | _ => none

/-- The session-selection expression
next((s for s in sessions if s.get("id") == self._session_id), sessions[0])
(lines 86 and 134). -/
def selectSession (sessions : List SessionData) (session_id : Option String) :
    SessionData :=
  (sessions.find? (fun s => s.id == session_id)).getD (sessions.headD default)

/-- The ws-token extraction chain of line 95-100:
session.get("ws_user_token") or session.get("wsToken")
or session.get("last_active_token", \x7b\x7d).get("jwt")
or session.get("user", \x7b\x7d).get("id"). -/
def extract_ws_user_token (session : SessionData) : Option String :=
  pyOr session.ws_user_token
    (pyOr session.wsToken (pyOr session.last_active_token_jwt session.user_id))

/-- CtoNewClient._hydrate_ws_token_from_memberships (lines 113-147): a
transport error returns quietly, an empty sessions array returns quietly,
and otherwise the missing fields among session_id, ws_user_token and
active_org_id are filled from the membership response (the jwt attribute
is never modified here). -/
def hydrate_ws_token_from_memberships (mresp : MembershipResp) (st : ClientState) :
    ClientState :=
  match mresp with
  | .err => st
  | .ok client_data =>
    match client_data.sessions with
    | [] => st
    | s0 :: _ =>
      let session_id :=
        if pyFalsy st.session_id then pyOr client_data.last_active_session_id s0.id
        else st.session_id
      let session := selectSession client_data.sessions session_id
      let ws1 := pyOr st.ws_user_token (pyOr session.ws_user_token session.wsToken)
      let ws_user_token := if pyFalsy ws1 then session.user_id else ws1
      let active_org_id :=
        if pyFalsy st.active_org_id then
          pyOr client_data.last_active_organization_id
            (pyOr session.last_active_organization_id (extract_active_org client_data))
        else st.active_org_id
      { st with session_id := session_id, ws_user_token := ws_user_token,
                active_org_id := active_org_id }

/-- The attribute assignments of _get_clerk_info lines 85-100, for a
client_data with at least one session: session_id from the last-active
hint or the first session, the selected session, active_org_id from its
fallback chain, jwt passed through from the response when present, and
ws_user_token from the extraction chain.  Returns st unchanged when the
sessions array is empty (that branch raises before any assignment). -/
def clerk_primary_state (client_data : ClientData) (st : ClientState) : ClientState :=
  match client_data.sessions with
  | [] => st
  | s0 :: _ =>
    let session_id := pyOr client_data.last_active_session_id s0.id
    let session := selectSession client_data.sessions session_id
    let active_org_id :=
      pyOr client_data.last_active_organization_id
        (pyOr session.last_active_organization_id (extract_active_org client_data))
    let jwt := pyOr session.last_active_token_jwt st.jwt
    { jwt := jwt, ws_user_token := extract_ws_user_token session,
      session_id := session_id, active_org_id := active_org_id }

/-- CtoNewClient._get_clerk_info (lines 60-111), modelled from the point
where the GET on /v1/client has succeeded and its JSON payload has been
parsed into client_data (a transport failure there is re-raised as
AuthError by the source and is outside this function).  Mirrors lines
80-105: no sessions raises AuthError; otherwise the attributes are
assigned per clerk_primary_state; when session_id or ws_user_token is
still falsy the membership hydration runs (its GET advancing the
membership counter), and if either is still falsy afterwards AuthError is
raised (with the mutated attributes kept). -/
def get_clerk_info (client_data : ClientData) (mresp : MembershipResp)
    (st : ClientState) (tr : NetTrace) : StepResult :=
  let tr1 := { tr with clerk_info_calls := tr.clerk_info_calls + 1 }
  match client_data.sessions with
  | [] => ⟨st, tr1, some .noSessions⟩
  | _ :: _ =>
    let st1 := clerk_primary_state client_data st
    if pyFalsy st1.session_id || pyFalsy st1.ws_user_token then
      let st2 := hydrate_ws_token_from_memberships mresp st1
      let tr2 := { tr1 with membership_calls := tr1.membership_calls + 1 }
      if pyFalsy st2.session_id || pyFalsy st2.ws_user_token then
        ⟨st2, tr2, some .noSessionOrWsToken⟩
      else ⟨st2, tr2, none⟩
    else ⟨st1, tr1, none⟩

/- ============================================================
   Token refresh: _touch_session, _refresh_jwt, authenticate
   ============================================================ -/

/-- CtoNewClient._touch_session (lines 158-189): raises AuthError when
session_id is missing (before any network call); otherwise attempts the
POST (advancing the touch counter); a transport error raises AuthError
with the state unchanged; on success the jwt attribute is replaced only
when the response carries a truthy jwt field. -/
def touch_session (resp : HttpResp) (st : ClientState) (tr : NetTrace) : StepResult :=
  if pyFalsy st.session_id then ⟨st, tr, some .touchSessionIdMissing⟩
  else
    let tr1 := { tr with touch_calls := tr.touch_calls + 1 }
    match resp with
    | .err => ⟨st, tr1, some .touchRequestFailed⟩
    | .ok token =>
      if pyFalsy token then ⟨st, tr1, none⟩ else ⟨{ st with jwt := token }, tr1, none⟩

/-- CtoNewClient._refresh_jwt (lines 191-219): raises AuthError when
session_id is missing; otherwise runs _touch_session and propagates its
error; then attempts the tokens POST (advancing the tokens counter); a
transport error raises AuthError leaving jwt as the touch left it; on
success the source assigns self._jwt = r.json().get("jwt") FIRST and only
then raises AuthError when that value is falsy, so the assignment persists
even on the empty-jwt failure. -/
def refresh_jwt (touchResp tokensResp : HttpResp) (st : ClientState)
    (tr : NetTrace) : StepResult :=
  if pyFalsy st.session_id then ⟨st, tr, some .refreshSessionIdMissing⟩
  else
    match touch_session touchResp st tr with
    | ⟨st1, tr1, some e⟩ => ⟨st1, tr1, some e⟩
    | ⟨st1, tr1, none⟩ =>
      let tr2 := { tr1 with tokens_calls := tr1.tokens_calls + 1 }
      match tokensResp with
      | .err => ⟨st1, tr2, some .tokensRequestFailed⟩
      | .ok token =>
        let st2 := { st1 with jwt := token }
        if pyFalsy token then ⟨st2, tr2, some .emptyJwt⟩ else ⟨st2, tr2, none⟩

/-- CtoNewClient.authenticate (lines 221-224): unconditionally runs
_get_clerk_info and then _refresh_jwt; there is no already-authenticated
guard in this method (the guards live in create_chat, which checks _jwt,
and stream_chat_response, which checks _ws_user_token). -/
def authenticate (client_data : ClientData) (mresp : MembershipResp)
    (touchResp tokensResp : HttpResp) (st : ClientState) (tr : NetTrace) :
    StepResult :=
  match get_clerk_info client_data mresp st tr with
  | ⟨st1, tr1, some e⟩ => ⟨st1, tr1, some e⟩
  | ⟨st1, tr1, none⟩ => refresh_jwt touchResp tokensResp st1 tr1

/-- The lazy-authentication guard of create_chat (lines 226-229): the
handshake runs only when _jwt is falsy. -/
def create_chat_auth_guard (client_data : ClientData) (mresp : MembershipResp)
    (touchResp tokensResp : HttpResp) (st : ClientState) (tr : NetTrace) :
    StepResult :=
  if pyFalsy st.jwt then authenticate client_data mresp touchResp tokensResp st tr
  else ⟨st, tr, none⟩

/-- A fixture: a Clerk client response with one fully-populated session, on
which the whole handshake succeeds. -/
def authExampleEnvData : ClientData :=
  { sessions := [{ id := some "sid", ws_user_token := some "wst" }] }

/-- A fixture: one successful authenticate call from the initial state. -/
def authExampleOnce : StepResult :=
  authenticate authExampleEnvData .err (.ok (some "jwt1")) (.ok (some "jwt2"))
    default default

/-- A fixture: a second authenticate call on the already-authenticated
state left by authExampleOnce, against the unchanged upstream. -/
def authExampleTwice : StepResult :=
  authenticate authExampleEnvData .err (.ok (some "jwt1")) (.ok (some "jwt2"))
    authExampleOnce.state authExampleOnce.trace

/- ============================================================
   Credential pool: CookieManager (src/openai_api_server.py lines 44-89)
   ============================================================ -/

/-- The mutable state of a CookieManager: the loaded cookie list, the
round-robin cursor, and the last observed modification time.  The
modification time is abstracted to Nat since the source only ever compares
it for equality. -/
structure CookieManager where
  cookies : List String := []
  index : Nat := 0
  mtime : Option Nat := none
  deriving DecidableEq, Repr, Inhabited

/-- The state of the backing cookie file: directory missing (the source
raises FileNotFoundError itself), file missing (stat raises
FileNotFoundError), or a file with a modification time and raw lines. -/
inductive FsState where
  | noDir
  | noFile
  | file (mtime : Nat) (lines : List String)
  deriving DecidableEq, Repr

/-- The diagnostics _load_cookies prints: the success message with the
cookie count, or one of the warning messages. -/
inductive Diag where
  | loaded (n : Nat)
  | dirMissing
  | fileMissing
  | noCookies
  deriving DecidableEq, Repr

/-- The whitespace characters str.strip() removes (restricted to the ASCII
whitespace that can occur in a credential file). -/
def isSpaceChar (c : Char) : Bool :=
  c = ' ' || c = '\t' || c = '\n' || c = '\r'

/-- Python line.strip(): drop leading and trailing whitespace. -/
def stripLine (s : String) : String :=
  String.mk (((s.data.dropWhile isSpaceChar).reverse.dropWhile isSpaceChar).reverse)

/-- The line filter of _load_cookies (line 66): strip each line and keep the
non-empty ones not starting with "#" (startswith("#") is: the first
character is '#'). -/
def parseCookieLines (raw : List String) : List String :=
  (raw.map stripLine).filter (fun l => l ≠ "" && l.data.headD ' ' ≠ '#')

/-- CookieManager._load_cookies (lines 54-79): a missing directory or file
lands in the FileNotFoundError handler, which CLEARS the cookie list (and
prints a warning); an unchanged modification time returns early; a file
with no usable lines lands in the ValueError handler, which leaves the
state untouched (and prints a warning); otherwise the cookie list is
replaced, the cursor reset to 0 and the modification time recorded.
Every branch returns normally: nothing propagates to the caller. -/
def load_cookies (fs : FsState) (cm : CookieManager) : CookieManager × List Diag :=
  match fs with
  | .noDir => ({ cm with cookies := [] }, [.dirMissing])
  | .noFile => ({ cm with cookies := [] }, [.fileMissing])
  | .file mtime raw =>
    if cm.mtime = some mtime then (cm, [])
    else
      let cookies := parseCookieLines raw
      if cookies = [] then (cm, [.noCookies])
      else ({ cookies := cookies, index := 0, mtime := some mtime }, [.loaded cookies.length])

/-- CookieManager.get_cookie (lines 81-89): under the lock, reload, then
raise ValueError (modelled as none) when the pool is empty, else return
the cookie at the cursor and advance the cursor cyclically.  The source
indexes self._cookies[self._index] directly; in every reachable state the
cursor is in range (a reload resets it to 0), so the defaulting getD
coincides with the source. -/
def get_cookie (fs : FsState) (cm : CookieManager) : Option (String × CookieManager) :=
  let cm1 := (load_cookies fs cm).1
  match cm1.cookies with
  | [] => none
  | _ :: _ =>
    let cookie := cm1.cookies.getD cm1.index ""
    some (cookie, { cm1 with index := (cm1.index + 1) % cm1.cookies.length })

/-- N successive get_cookie calls, returning the dispensed cookies in order
and the final state; an empty-pool failure stops the sequence. -/
def get_cookie_n (fs : FsState) (cm : CookieManager) : Nat → List String × CookieManager
  | 0 => ([], cm)
  | n + 1 =>
    match get_cookie fs cm with
    | none => ([], cm)
    | some (c, cm1) =>
      let r := get_cookie_n fs cm1 n
      (c :: r.1, r.2)

/- ============================================================
   Theorems
   ============================================================ -/

/-- The main stream lemma: a sequence of chat update frames followed by a
terminal state frame yields exactly the non-empty contents, in order, and
completes without error. -/
theorem stream_chat_response_updates_then_done (cs : List String) :
    stream_chat_response (cs.map updateChat ++ [stateDone]) =
      (cs.filter (fun c => c ≠ ""), .ok) := by
  induction cs with
  | nil => rfl
  | cons c cs ih =>
    by_cases h : c = "" <;>
      simp [updateChat, stream_chat_response, h, ih, List.filter_cons]

/-- Processing a non-terminal frame leaves the completion status of the rest
of the stream unchanged. -/
theorem stream_chat_response_status_cons (f : Frame) (hf : f ≠ .state (some false))
    (rest : List RecvEvent) :
    (stream_chat_response (.frame f :: rest)).2 = (stream_chat_response rest).2 := by
  match f with
  | .invalid => rfl
  | .otherType => rfl
  | .update none => rfl
  | .update (some .invalid) => rfl
  | .update (some .otherType) => rfl
  | .update (some (.chat content)) =>
    by_cases h : content = "" <;> simp [stream_chat_response, h]
  | .state none => rfl
  | .state (some true) => rfl
  | .state (some false) => exact absurd rfl hf

/-- A run of non-terminal frames followed by a final event finishes with the
status determined by that final event. -/
theorem stream_chat_response_status_append (pre : List RecvEvent)
    (hpre : ∀ e ∈ pre, nonTerminal e = true) (last : RecvEvent) :
    (stream_chat_response (pre ++ [last])).2 = (stream_chat_response [last]).2 := by
  induction pre with
  | nil => rfl
  | cons e pre ih =>
    have he : nonTerminal e = true := hpre e (List.mem_cons_self e pre)
    have hrest : ∀ x ∈ pre, nonTerminal x = true :=
      fun x hx => hpre x (List.mem_cons_of_mem e hx)
    match e, he with
    | .frame f, he =>
      have hf : f ≠ .state (some false) := by
        intro h
        subst h
        simp [nonTerminal] at he
      rw [List.cons_append, stream_chat_response_status_cons f hf]
      exact ih hrest

/-- C1: For every finite sequence of upstream frames consisting of update
frames followed by a state frame with inProgress=false, stream_chat_response
yields exactly the non-empty inner chat content strings of the update
frames, in arrival order, and then completes without error; in particular,
for frames [update("Hello"), update(" world"), state(inProgress=false)] the
concatenation of all yielded increments equals "Hello world". -/
theorem C1_stream_yields_nonempty_contents_in_order :
    (∀ cs : List String,
       stream_chat_response (cs.map updateChat ++ [stateDone]) =
         (cs.filter (fun c => c ≠ ""), .ok)) ∧
    String.join (stream_chat_response
        [updateChat "Hello", updateChat " world", stateDone]).1 = "Hello world" := by
  refine ⟨stream_chat_response_updates_then_done, ?_⟩
  rfl

/-- C2: A read timeout or ordinary channel closure before the terminal
state frame ends the yielded sequence quietly with no error (and a stream
receiving zero frames within the read timeout yields the empty sequence),
whereas any other transport failure during connect or read raises ApiError. -/
theorem C2_timeout_closure_quiet_fault_raises (pre : List RecvEvent)
    (hpre : ∀ e ∈ pre, nonTerminal e = true) :
    (stream_chat_response (pre ++ [.timeout])).2 = .ok ∧
    (stream_chat_response (pre ++ [.closed])).2 = .ok ∧
    (stream_chat_response (pre ++ [.fault])).2 = .apiError ∧
    stream_chat_response [.timeout] = ([], .ok) := by
  refine ⟨?_, ?_, ?_, rfl⟩ <;>
    rw [stream_chat_response_status_append pre hpre] <;> rfl

/-- Witness for C2 at a concrete two-frame prefix. -/
theorem C2_witness :
    (stream_chat_response
        ([updateChat "x", .frame .invalid] ++ [.timeout])).2 = .ok ∧
    (stream_chat_response
        ([updateChat "x", .frame .invalid] ++ [.fault])).2 = .apiError := by
  have h := C2_timeout_closure_quiet_fault_raises
    [updateChat "x", .frame .invalid] (by decide)
  exact ⟨h.1, h.2.2.1⟩

/-- C9: A frame that fails to parse as JSON or lacks expected fields is
silently skipped without aborting the stream or raising; in particular a
stream containing one syntactically invalid frame followed by
[update("ok"), state(inProgress=false)] yields exactly "ok" and completes. -/
theorem C9_malformed_frames_silently_skipped :
    (∀ rest, stream_chat_response (.frame .invalid :: rest) =
       stream_chat_response rest) ∧
    (∀ rest, stream_chat_response (.frame .otherType :: rest) =
       stream_chat_response rest) ∧
    (∀ rest, stream_chat_response (.frame (.update none) :: rest) =
       stream_chat_response rest) ∧
    (∀ rest, stream_chat_response (.frame (.update (some .invalid)) :: rest) =
       stream_chat_response rest) ∧
    (∀ rest, stream_chat_response (.frame (.update (some .otherType)) :: rest) =
       stream_chat_response rest) ∧
    (∀ rest, stream_chat_response (.frame (.state none) :: rest) =
       stream_chat_response rest) ∧
    stream_chat_response [.frame .invalid, updateChat "ok", stateDone] =
      (["ok"], .ok) := by
  refine ⟨fun _ => rfl, fun _ => rfl, fun _ => rfl, fun _ => rfl, fun _ => rfl,
    fun _ => rfl, ?_⟩
  decide

/-- C10: A successful session touch never clears the current access token:
the touch operation replaces the stored access token only when its response
carries a non-empty token, and leaves the token, the session identifier and
the streaming token unchanged otherwise. -/
theorem C10_touch_never_clears_token (token : Option String) (st : ClientState)
    (tr : NetTrace) (h : pyFalsy st.session_id = false) :
    (touch_session (.ok token) st tr).err = none ∧
    (touch_session (.ok token) st tr).state.session_id = st.session_id ∧
    (touch_session (.ok token) st tr).state.ws_user_token = st.ws_user_token ∧
    (pyFalsy token = true → (touch_session (.ok token) st tr).state = st) ∧
    (pyFalsy token = false →
       (touch_session (.ok token) st tr).state.jwt = token) ∧
    (pyFalsy st.jwt = false →
       pyFalsy (touch_session (.ok token) st tr).state.jwt = false) := by
  by_cases ht : pyFalsy token = true <;>
    simp_all [touch_session, h, ht]

/-- Witness for C10: a touch response with an empty jwt leaves the state of
an authenticated client untouched. -/
theorem C10_witness :
    (touch_session (.ok (some "")) ⟨some "j", some "w", some "sid", none⟩
        default).state = ⟨some "j", some "w", some "sid", none⟩ ∧
    (touch_session (.ok (some "t2")) ⟨some "j", some "w", some "sid", none⟩
        default).state.jwt = some "t2" := by
  have h1 := C10_touch_never_clears_token (some "")
    ⟨some "j", some "w", some "sid", none⟩ default (by decide)
  have h2 := C10_touch_never_clears_token (some "t2")
    ⟨some "j", some "w", some "sid", none⟩ default (by decide)
  exact ⟨h1.2.2.2.1 (by decide), h2.2.2.2.2.1 (by decide)⟩

/-- C8 counterexample: the claim says a failed renewal never destroys the
old token, but when the tokens call returns an empty jwt the source assigns
self._jwt before raising AuthError, so the previously stored token
some "old" is replaced by none. -/
theorem C8_counterexample :
    (refresh_jwt (.ok none) (.ok none)
        ⟨some "old", some "ws", some "sid", none⟩ default).err = some .emptyJwt ∧
    (refresh_jwt (.ok none) (.ok none)
        ⟨some "old", some "ws", some "sid", none⟩ default).state.jwt = none ∧
    (none : Option String) ≠ some "old" := by
  decide

/-- C8 amended: a renewal that fails at the transport level preserves the
stored token (a failed touch leaves the whole state unchanged; a failed
tokens POST leaves the jwt as the touch left it), and a successful renewal
replaces it with the returned token; but a renewal whose tokens response
carries a falsy jwt overwrites the stored token with that falsy value
before raising AuthError.  The session identifier and streaming token are
never modified by a renewal. -/
theorem C8_renewal_token_effects (touchResp tokensResp : HttpResp)
    (token : Option String) (st : ClientState) (tr : NetTrace)
    (h : pyFalsy st.session_id = false) :
    (refresh_jwt .err tokensResp st tr).state = st ∧
    ((touch_session touchResp st tr).err = none →
       (refresh_jwt touchResp .err st tr).state =
         (touch_session touchResp st tr).state) ∧
    ((touch_session touchResp st tr).err = none →
       (refresh_jwt touchResp (.ok token) st tr).state.jwt = token ∧
       (pyFalsy token = true →
          (refresh_jwt touchResp (.ok token) st tr).err = some .emptyJwt) ∧
       (pyFalsy token = false →
          (refresh_jwt touchResp (.ok token) st tr).err = none)) ∧
    (refresh_jwt touchResp tokensResp st tr).state.session_id = st.session_id ∧
    (refresh_jwt touchResp tokensResp st tr).state.ws_user_token =
      st.ws_user_token := by
  cases touchResp with
  | err =>
    cases tokensResp <;>
      refine ⟨by simp [refresh_jwt, touch_session, h], ?_, ?_, ?_, ?_⟩ <;>
        simp [refresh_jwt, touch_session, h]
  | ok tk =>
    by_cases htk : pyFalsy tk = true <;> cases tokensResp <;>
      refine ⟨by simp [refresh_jwt, touch_session, h], ?_, ?_, ?_, ?_⟩ <;>
        by_cases ht2 : pyFalsy token = true <;>
          simp [refresh_jwt, touch_session, h, htk, ht2] <;>
          split <;> rfl

/-- Witness for C8 amended: a touch-level transport failure on an
authenticated client leaves the whole state unchanged. -/
theorem C8_witness :
    (refresh_jwt .err (.ok (some "new"))
        ⟨some "old", some "ws", some "sid", none⟩ default).state =
      ⟨some "old", some "ws", some "sid", none⟩ ∧
    (refresh_jwt (.ok none) (.ok (some "new"))
        ⟨some "old", some "ws", some "sid", none⟩ default).state.jwt = some "new" ∧
    (refresh_jwt (.ok none) (.ok (some "new"))
        ⟨some "old", some "ws", some "sid", none⟩ default).err = none := by
  have h1 := C8_renewal_token_effects .err (.ok (some "new")) (some "new")
    ⟨some "old", some "ws", some "sid", none⟩ default (by decide)
  have h2 := C8_renewal_token_effects (.ok none) (.ok (some "new")) (some "new")
    ⟨some "old", some "ws", some "sid", none⟩ default (by decide)
  exact ⟨h1.1, (h2.2.2.1 (by decide)).1, (h2.2.2.1 (by decide)).2.2 (by decide)⟩

/-- C6: The streaming-channel token is extracted by trying candidate fields
of the selected session in a fixed priority order — ws_user_token, then
wsToken, then the last-active-token jwt, then the owning-user id — the
first non-empty candidate winning; in particular a response missing the
primary field but containing the secondary field still resolves a valid
session. -/
theorem C6_ws_token_fallback_priority (s : SessionData) :
    (pyFalsy s.ws_user_token = false →
       extract_ws_user_token s = s.ws_user_token) ∧
    (pyFalsy s.ws_user_token = true → pyFalsy s.wsToken = false →
       extract_ws_user_token s = s.wsToken) ∧
    (pyFalsy s.ws_user_token = true → pyFalsy s.wsToken = true →
       pyFalsy s.last_active_token_jwt = false →
       extract_ws_user_token s = s.last_active_token_jwt) ∧
    (pyFalsy s.ws_user_token = true → pyFalsy s.wsToken = true →
       pyFalsy s.last_active_token_jwt = true →
       extract_ws_user_token s = s.user_id) ∧
    (get_clerk_info { sessions := [{ id := some "sid", wsToken := some "tok" }] }
        .err default default).err = none ∧
    (get_clerk_info { sessions := [{ id := some "sid", wsToken := some "tok" }] }
        .err default default).state.ws_user_token = some "tok" := by
  refine ⟨?_, ?_, ?_, ?_, by decide, by decide⟩ <;>
    intros <;> simp_all [extract_ws_user_token, pyOr]

/-- Witness for C6: a session without ws_user_token but with wsToken
resolves to the wsToken value. -/
theorem C6_witness :
    extract_ws_user_token ⟨none, none, none, some "alt", none, none⟩ =
      some "alt" := by
  exact (C6_ws_token_fallback_priority ⟨none, none, none, some "alt", none, none⟩).2.1
    (by decide) (by decide)

/-- Hydration never degrades an already-truthy session_id or ws_user_token:
the membership lookup only fills missing fields. -/
theorem hydrate_preserves_truthy (mresp : MembershipResp) (st : ClientState) :
    (pyFalsy st.session_id = false →
       (hydrate_ws_token_from_memberships mresp st).session_id = st.session_id) ∧
    (pyFalsy st.ws_user_token = false →
       (hydrate_ws_token_from_memberships mresp st).ws_user_token =
         st.ws_user_token) := by
  cases mresp with
  | err => exact ⟨fun _ => rfl, fun _ => rfl⟩
  | ok cd =>
    cases hcd : cd.sessions with
    | nil => simp [hydrate_ws_token_from_memberships, hcd]
    | cons s0 rest =>
      constructor
      · intro h
        simp [hydrate_ws_token_from_memberships, hcd, h]
      · intro h
        simp [hydrate_ws_token_from_memberships, hcd, h, pyOr]

/-- C7: Session resolution raises AuthError exactly when the identity
response contains no session, or when after the primary assignments and
the membership hydration either the session identifier or the streaming
token is still missing; and the only errors it ever raises are the two
AuthError conditions (the embedding is a total function, so missing
optional fields in any other position cannot crash it). -/
theorem C7_autherror_exactly_when (client_data : ClientData)
    (mresp : MembershipResp) (st : ClientState) (tr : NetTrace) :
    ((get_clerk_info client_data mresp st tr).err.isSome = true ↔
      (client_data.sessions = [] ∨
        pyFalsy (hydrate_ws_token_from_memberships mresp
            (clerk_primary_state client_data st)).session_id = true ∨
        pyFalsy (hydrate_ws_token_from_memberships mresp
            (clerk_primary_state client_data st)).ws_user_token = true)) ∧
    ((get_clerk_info client_data mresp st tr).err = none ∨
     (get_clerk_info client_data mresp st tr).err = some .noSessions ∨
     (get_clerk_info client_data mresp st tr).err = some .noSessionOrWsToken) := by
  cases hcd : client_data.sessions with
  | nil => simp [get_clerk_info, hcd]
  | cons s0 rest =>
    have hne : client_data.sessions ≠ [] := by simp [hcd]
    by_cases hc : (pyFalsy (clerk_primary_state client_data st).session_id ||
        pyFalsy (clerk_primary_state client_data st).ws_user_token) = true
    · by_cases hc2 : (pyFalsy (hydrate_ws_token_from_memberships mresp
            (clerk_primary_state client_data st)).session_id ||
          pyFalsy (hydrate_ws_token_from_memberships mresp
            (clerk_primary_state client_data st)).ws_user_token) = true <;>
        simp_all [get_clerk_info, hcd]
    · have hfsid : pyFalsy (clerk_primary_state client_data st).session_id = false := by
        simp only [Bool.or_eq_true, not_or] at hc
        simpa using hc.1
      have hfws : pyFalsy (clerk_primary_state client_data st).ws_user_token = false := by
        simp only [Bool.or_eq_true, not_or] at hc
        simpa using hc.2
      have hp := hydrate_preserves_truthy mresp (clerk_primary_state client_data st)
      constructor
      · simp [get_clerk_info, hcd, hc, hp.1 hfsid, hp.2 hfws, hfsid, hfws]
      · simp [get_clerk_info, hcd, hc]

/-- The trace effect of _get_clerk_info: the identity GET always runs
exactly once; the touch and tokens counters are untouched. -/
theorem get_clerk_info_trace (cd : ClientData) (mresp : MembershipResp)
    (st : ClientState) (tr : NetTrace) :
    (get_clerk_info cd mresp st tr).trace.clerk_info_calls =
        tr.clerk_info_calls + 1 ∧
    (get_clerk_info cd mresp st tr).trace.touch_calls = tr.touch_calls ∧
    (get_clerk_info cd mresp st tr).trace.tokens_calls = tr.tokens_calls := by
  cases hcd : cd.sessions <;> simp only [get_clerk_info, hcd] <;>
    repeat' first | split | simp

/-- The trace effect of _refresh_jwt: the identity counter is untouched,
and on success the touch and tokens POSTs each ran exactly once. -/
theorem refresh_jwt_trace (touchResp tokensResp : HttpResp) (st : ClientState)
    (tr : NetTrace) :
    (refresh_jwt touchResp tokensResp st tr).trace.clerk_info_calls =
        tr.clerk_info_calls ∧
    ((refresh_jwt touchResp tokensResp st tr).err = none →
       (refresh_jwt touchResp tokensResp st tr).trace.touch_calls =
           tr.touch_calls + 1 ∧
       (refresh_jwt touchResp tokensResp st tr).trace.tokens_calls =
           tr.tokens_calls + 1) := by
  by_cases hs : pyFalsy st.session_id = true
  · simp [refresh_jwt, hs]
  · cases touchResp with
    | err => simp [refresh_jwt, touch_session, hs]
    | ok tk =>
      by_cases htk : pyFalsy tk = true <;> cases tokensResp with
      | err => simp [refresh_jwt, touch_session, hs, htk]
      | ok token =>
        by_cases ht2 : pyFalsy token = true <;>
          simp [refresh_jwt, touch_session, hs, htk, ht2]

/-- C3 counterexample: on a concrete environment where the handshake
succeeds, a second authenticate() call on the already-authenticated client
performs each handshake network call a second time (two identity lookups,
two touches, two renewals in total — not one), refuting the claimed no-op. -/
theorem C3_counterexample :
    authExampleOnce.err = none ∧
    authExampleTwice.err = none ∧
    authExampleTwice.trace.clerk_info_calls = 2 ∧
    authExampleTwice.trace.touch_calls = 2 ∧
    authExampleTwice.trace.tokens_calls = 2 ∧
    (2 : Nat) ≠ 1 := by
  decide

/-- C3 amended: authenticate() itself unconditionally re-runs the
handshake — every call performs the identity lookup exactly once more, and
every successful call performs the touch and renewal exactly once more —
so two direct calls perform each handshake call twice; the
already-authenticated no-op holds instead at the guarded entry point: the
create_chat guard skips authentication entirely when a jwt is present. -/
theorem C3_authenticate_reruns_guard_skips (client_data : ClientData)
    (mresp : MembershipResp) (touchResp tokensResp : HttpResp)
    (st : ClientState) (tr : NetTrace) :
    ((authenticate client_data mresp touchResp tokensResp st tr).trace.clerk_info_calls
        = tr.clerk_info_calls + 1) ∧
    ((authenticate client_data mresp touchResp tokensResp st tr).err = none →
       (authenticate client_data mresp touchResp tokensResp st tr).trace.touch_calls
           = tr.touch_calls + 1 ∧
       (authenticate client_data mresp touchResp tokensResp st tr).trace.tokens_calls
           = tr.tokens_calls + 1) ∧
    (pyFalsy st.jwt = false →
       create_chat_auth_guard client_data mresp touchResp tokensResp st tr =
         ⟨st, tr, none⟩) := by
  have hg := get_clerk_info_trace client_data mresp st tr
  refine ⟨?_, ?_, ?_⟩
  · rw [authenticate]
    split
    · rename_i st1 tr1 e heq
      have : (get_clerk_info client_data mresp st tr).trace = tr1 := by rw [heq]
      simpa [this] using hg.1
    · rename_i st1 tr1 heq
      have htr : (get_clerk_info client_data mresp st tr).trace = tr1 := by rw [heq]
      have := (refresh_jwt_trace touchResp tokensResp st1 tr1).1
      rw [this, ← htr]
      exact hg.1
  · rw [authenticate]
    split
    · simp
    · rename_i st1 tr1 heq
      have htr : (get_clerk_info client_data mresp st tr).trace = tr1 := by rw [heq]
      intro he
      have := (refresh_jwt_trace touchResp tokensResp st1 tr1).2 he
      rw [this.1, this.2, ← htr]
      exact ⟨by rw [hg.2.1], by rw [hg.2.2]⟩
  · intro hj
    simp [create_chat_auth_guard, hj]

/-- Witness for C3 amended at a concrete environment and an
already-authenticated state. -/
theorem C3_witness :
    (authenticate authExampleEnvData .err (.ok (some "jwt1")) (.ok (some "jwt2"))
        default default).trace.clerk_info_calls = 1 ∧
    (authenticate authExampleEnvData .err (.ok (some "jwt1")) (.ok (some "jwt2"))
        default default).trace.touch_calls = 1 ∧
    (authenticate authExampleEnvData .err (.ok (some "jwt1")) (.ok (some "jwt2"))
        default default).trace.tokens_calls = 1 ∧
    create_chat_auth_guard authExampleEnvData .err (.ok (some "jwt1"))
        (.ok (some "jwt2")) ⟨some "j", none, none, none⟩ default =
      ⟨⟨some "j", none, none, none⟩, default, none⟩ := by
  have h1 := C3_authenticate_reruns_guard_skips authExampleEnvData .err
    (.ok (some "jwt1")) (.ok (some "jwt2")) default default
  have h2 := C3_authenticate_reruns_guard_skips authExampleEnvData .err
    (.ok (some "jwt1")) (.ok (some "jwt2")) ⟨some "j", none, none, none⟩ default
  exact ⟨h1.1, (h1.2.1 (by decide)).1, (h1.2.1 (by decide)).2, h2.2.2 (by decide)⟩

/-- With the backing file unchanged (same modification time as last
observed), N get_cookie calls starting at cursor i dispense the cookies at
positions (i + k) % K for k = 0, ..., N-1 and leave the cursor at
(i + N) % K. -/
theorem get_cookie_n_round_robin (mt : Nat) (raw ls : List String) (N : Nat)
    (hls : ls ≠ []) : ∀ i, i < ls.length →
    get_cookie_n (.file mt raw) ⟨ls, i, some mt⟩ N =
      ((List.range N).map (fun k => ls.getD ((i + k) % ls.length) ""),
       ⟨ls, (i + N) % ls.length, some mt⟩) := by
  have hK : 0 < ls.length := List.length_pos.mpr hls
  induction N with
  | zero =>
    intro i hi
    simp [get_cookie_n, Nat.mod_eq_of_lt hi]
  | succ N ih =>
    intro i hi
    have hi1 : (i + 1) % ls.length < ls.length := Nat.mod_lt _ hK
    have step : get_cookie (.file mt raw) ⟨ls, i, some mt⟩ =
        some (ls.getD i "", ⟨ls, (i + 1) % ls.length, some mt⟩) := by
      cases hh : ls with
      | nil => exact absurd hh hls
      | cons a as =>
        subst hh
        simp [get_cookie, load_cookies]
    simp only [get_cookie_n, step]
    rw [ih ((i + 1) % ls.length) hi1]
    rw [List.range_succ_eq_map]
    refine congrArg₂ Prod.mk ?_ ?_
    · simp only [List.map_cons, List.map_map, List.cons.injEq]
      constructor
      · rw [Nat.add_zero, Nat.mod_eq_of_lt hi]
      · refine congrArg₂ List.map (funext fun k => ?_) rfl
        simp only [Function.comp_apply, Nat.mod_add_mod]
        have : (i + 1) + k = i + (k + 1) := by omega
        rw [this]
    · refine congrArg (fun m => CookieManager.mk ls m (some mt)) ?_
      rw [Nat.mod_add_mod]
      have : (i + 1) + N = i + (N + 1) := by omega
      rw [this]

/-- How many of the first N round-robin slots land on pool position j:
N / K extra-full cycles plus one more when j falls inside the final
partial cycle. -/
theorem count_range_mod (K j : Nat) (hK : 0 < K) (hj : j < K) : ∀ N : Nat,
    ((List.range N).filter (fun k => k % K = j)).length =
      N / K + if j < N % K then 1 else 0 := by
  intro N
  induction N with
  | zero => simp [Nat.lt_irrefl]
  | succ N ih =>
    rw [List.range_succ, List.filter_append, List.length_append, ih]
    have hr : N % K < K := Nat.mod_lt _ hK
    have hdm := Nat.div_add_mod N K
    have hfil : (List.filter (fun k => decide (k % K = j)) [N]).length =
        if N % K = j then 1 else 0 := by
      by_cases hjN : N % K = j <;> simp [List.filter_singleton, hjN]
    rw [hfil]
    by_cases hNK : N % K + 1 = K
    · have hmul : (N / K + 1) * K = K * (N / K) + K := by ring
      have hNeq : N + 1 = (N / K + 1) * K := by omega
      have hdiv : (N + 1) / K = N / K + 1 := by
        rw [hNeq, Nat.mul_div_cancel _ hK]
      have hmod : (N + 1) % K = 0 := by
        rw [hNeq, Nat.mul_mod_left]
      rw [hdiv, hmod]
      split_ifs <;> omega
    · have hmul : N / K * K = K * (N / K) := Nat.mul_comm _ _
      have hNeq : N + 1 = (N % K + 1) + N / K * K := by omega
      have hdiv : (N + 1) / K = N / K := by
        rw [hNeq, Nat.add_mul_div_right _ _ hK, Nat.div_eq_of_lt (by omega)]
        omega
      have hmod : (N + 1) % K = N % K + 1 := by
        rw [hNeq, Nat.add_mul_mod_self_right, Nat.mod_eq_of_lt (by omega)]
      rw [hdiv, hmod]
      split_ifs <;> omega

/-- The partial-cycle increment turns the floor of N / K into its ceiling:
when N % K is non-zero, (N + K - 1) / K = N / K + 1. -/
theorem ceil_div_of_mod_ne_zero (N K : Nat) (hK : 0 < K) (h : N % K ≠ 0) :
    (N + K - 1) / K = N / K + 1 := by
  have hdm := Nat.div_add_mod N K
  have hr : N % K < K := Nat.mod_lt _ hK
  have hmul : (N / K + 1) * K = K * (N / K) + K := by ring
  have hNeq : N + K - 1 = (N % K - 1) + (N / K + 1) * K := by omega
  rw [hNeq, Nat.add_mul_div_right _ _ hK, Nat.div_eq_of_lt (by omega)]
  omega

/-- C4: Starting from a freshly loaded pool (cursor 0) with no reload event
(the modification time of the backing file is the one last observed), N
dispense calls return the credentials in round-robin order starting from
index 0 — the k-th call returns the cookie at position k % K — and each
pool position j is visited either ⌊N/K⌋ or ⌈N/K⌉ = (N + K - 1) / K times. -/
theorem C4_round_robin_fair (mt N j : Nat) (raw ls : List String)
    (hls : ls ≠ []) (hj : j < ls.length) :
    (get_cookie_n (.file mt raw) ⟨ls, 0, some mt⟩ N).1 =
      (List.range N).map (fun k => ls.getD (k % ls.length) "") ∧
    (((List.range N).filter (fun k => k % ls.length = j)).length = N / ls.length ∨
     ((List.range N).filter (fun k => k % ls.length = j)).length =
       (N + ls.length - 1) / ls.length) := by
  have hK : 0 < ls.length := List.length_pos.mpr hls
  constructor
  · rw [get_cookie_n_round_robin mt raw ls N hls 0 hK]
    simp
  · rw [count_range_mod ls.length j hK hj N]
    by_cases hcase : j < N % ls.length
    · right
      have hne : N % ls.length ≠ 0 := by omega
      rw [ceil_div_of_mod_ne_zero N ls.length hK hne]
      simp [hcase]
    · left
      simp [hcase]

/-- Witness for C4: five dispenses against a two-cookie pool return
a b a b a; position 0 is visited ⌈5/2⌉ = 3 times, position 1 is visited
⌊5/2⌋ = 2 times. -/
theorem C4_witness :
    (get_cookie_n (.file 7 ["a", "b"]) ⟨["a", "b"], 0, some 7⟩ 5).1 =
      ["a", "b", "a", "b", "a"] ∧
    ((List.range 5).filter (fun k => k % 2 = 0)).length = 3 ∧
    ((List.range 5).filter (fun k => k % 2 = 1)).length = 2 := by
  have h0 := C4_round_robin_fair 7 5 0 ["a", "b"] ["a", "b"]
    (by decide) (by decide)
  refine ⟨?_, by decide, by decide⟩
  rw [h0.1]
  decide

/-- C5 counterexample: the claim says any read failure leaves the
previously loaded credential set untouched, but when the backing file is
missing the FileNotFoundError handler assigns self._cookies = [], clearing
the previously loaded set ["c1"]. -/
theorem C5_counterexample :
    (load_cookies .noFile ⟨["c1"], 0, some 1⟩).1.cookies = [] ∧
    (["c1"] : List String) ≠ [] := by
  decide

/-- C5 amended: the reload re-reads the backing file only when its
modification time differs from the last observed value; a file with no
usable credential lines leaves the previously loaded set untouched; a
missing file or missing directory clears the pool to empty (keeping the
cursor and last observed modification time); every branch reports its
diagnostic and returns normally — the embedding is a total function, so no
failure propagates to the caller. -/
theorem C5_reload_policy (cm : CookieManager) (mt : Nat) (raw : List String) :
    (cm.mtime = some mt → load_cookies (.file mt raw) cm = (cm, [])) ∧
    (cm.mtime ≠ some mt → parseCookieLines raw = [] →
       load_cookies (.file mt raw) cm = (cm, [.noCookies])) ∧
    (cm.mtime ≠ some mt → parseCookieLines raw ≠ [] →
       load_cookies (.file mt raw) cm =
         (⟨parseCookieLines raw, 0, some mt⟩, [.loaded (parseCookieLines raw).length])) ∧
    (load_cookies .noFile cm = ({ cm with cookies := [] }, [.fileMissing])) ∧
    (load_cookies .noDir cm = ({ cm with cookies := [] }, [.dirMissing])) := by
  refine ⟨fun h1 => by simp [load_cookies, h1],
          fun h1 h2 => by simp [load_cookies, h1, h2],
          fun h1 h2 => by simp [load_cookies, h1, h2], rfl, rfl⟩

/-- Witness for C5 amended: an unchanged modification time skips the read,
and an empty file content leaves a previously loaded pool untouched. -/
theorem C5_witness :
    load_cookies (.file 3 ["x"]) ⟨["c1"], 0, some 3⟩ = (⟨["c1"], 0, some 3⟩, []) ∧
    load_cookies (.file 4 ["# only a comment", "  "]) ⟨["c1"], 0, some 3⟩ =
      (⟨["c1"], 0, some 3⟩, [.noCookies]) ∧
    load_cookies (.file 5 [" c2 "]) ⟨["c1"], 0, some 3⟩ =
      (⟨["c2"], 0, some 5⟩, [.loaded 1]) := by
  have h1 := C5_reload_policy ⟨["c1"], 0, some 3⟩ 3 ["x"]
  have h2 := C5_reload_policy ⟨["c1"], 0, some 3⟩ 4 ["# only a comment", "  "]
  have h3 := C5_reload_policy ⟨["c1"], 0, some 3⟩ 5 [" c2 "]
  refine ⟨h1.1 (by decide), h2.2.1 (by decide) (by decide), ?_⟩
  have := h3.2.2.1 (by decide) (by decide)
  simpa using this

end Fucto
